import Mathlib

/-!
Shallow embedding of the ZenAI backend's task-classification and
report-aggregation logic, translated from:

* `src/app/main.py` (`get_dashboard`, `get_overdue_tasks`, `get_at_risk_tasks`,
  `generate_daily_report`'s Team Workload section),
* `src/app/agents/groq_agent.py` (`GroqAgent.summarize_tasks`),
* `src/app/routes/chat.py` (`generate_report`),
* `src/app/core/scheduler.py` (`run_scheduled_report`).

Dates are represented as proleptic-Gregorian ordinal day numbers (the same
representation Python's `date.toordinal` uses), so that Python's `date`
comparison and subtraction become `Nat` comparison and subtraction.
External effects (the Notion fetch, the Groq LLM call) are passed in as
`Except` values: `.ok` models a successful call, `.error` models the call
raising an exception.
-/

/- ## Calendar arithmetic (Python `datetime.date`) -/

/-- Gregorian leap-year rule, as in Python's `calendar.isleap`. -/
def isLeapYear (y : Nat) : Bool := (y % 4 == 0 && y % 100 != 0) || (y % 400 == 0)

/-- Length of month `m` in year `y` (Python `datetime` validation). -/
def daysInMonth (y m : Nat) : Nat :=
  if m = 2 then (if isLeapYear y then 29 else 28)
  else if m = 4 ∨ m = 6 ∨ m = 9 ∨ m = 11 then 30 else 31

/-- Cumulative day count before month `m` in a non-leap year. -/
def cumDaysBeforeMonth (m : Nat) : Nat :=
  match m with
  | 1 => 0 | 2 => 31 | 3 => 59 | 4 => 90 | 5 => 120 | 6 => 151
  | 7 => 181 | 8 => 212 | 9 => 243 | 10 => 273 | 11 => 304 | 12 => 334
  | _ => 0

/-- Ordinal day number of the date `y-m-d`, with day 1 = 0001-01-01
(the formula behind Python's `date.toordinal`). -/
def toOrdinal (y m d : Nat) : Nat :=
  365 * (y - 1) + ((y - 1) / 4 - (y - 1) / 100 + (y - 1) / 400)
    + cumDaysBeforeMonth m + (if 3 ≤ m ∧ isLeapYear y then 1 else 0) + d

/- ## Date-string parsing (`datetime.strptime(s, "%Y-%m-%d")`) -/

/-- Numeric value of a list of decimal digit characters. -/
def digitsVal (cs : List Char) : Nat := cs.foldl (fun a c => 10 * a + (c.toNat - 48)) 0

/-- Split a character list on the dash character (field separator of the
`%Y-%m-%d` format). -/
def splitOnDash : List Char → List (List Char)
  | [] => [[]]
  | c :: cs =>
    if c = '-' then [] :: splitOnDash cs
    else
      match splitOnDash cs with
      | [] => [[c]]
      | g :: gs => (c :: g) :: gs

/-- Embedding of `datetime.strptime(s, "%Y-%m-%d").date()` wrapped in
`try/except`: `some` is a successful parse (as an ordinal day), `none` is
`ValueError`.  `%Y` needs exactly four digits, `%m` and `%d` one or two,
and the `date` constructor validates year/month/day ranges. -/
def parseDate (s : String) : Option Nat :=
  match splitOnDash s.data with
  | [ys, ms, ds] =>
    if ys.length = 4 && ys.all Char.isDigit
        && decide (1 ≤ ms.length) && decide (ms.length ≤ 2) && ms.all Char.isDigit
        && decide (1 ≤ ds.length) && decide (ds.length ≤ 2) && ds.all Char.isDigit then
      let y := digitsVal ys
      let m := digitsVal ms
      let d := digitsVal ds
      if 1 ≤ y ∧ 1 ≤ m ∧ m ≤ 12 ∧ 1 ≤ d ∧ d ≤ daysInMonth y m then
        some (toOrdinal y m d)
      else none
    else none
  | _ => none

/- ## Canonical task records (dicts produced by the Notion task fetch) -/

/-- One task record as consumed by the endpoints in `src/app/main.py`
(keys `title`, `status`, `assignee_name`, `assignee_email`, `priority`,
`due_date`, `url`). -/
structure TaskRec where
  title : String
  status : String
  assignee_name : String
  assignee_email : Option String
  priority : String
  due_date : Option String
  url : String
deriving DecidableEq, Repr

/-- Python truthiness guard `if task["due_date"]:` followed by the parse:
`none` when the field is `None` or the empty string or unparseable. -/
def dueOrdOfString (s : String) : Option Nat :=
  if s = "" then none else parseDate s

/-- Ordinal due date of a task, `none` when absent/empty/unparseable. -/
def dueOrd (t : TaskRec) : Option Nat :=
  match t.due_date with
  | none => none
  | some s => dueOrdOfString s

/- ## Stable insertion sort (Python `list.sort` is a stable sort) -/

/-- Insert `x` into `l` in front of the first element `y` with `le x y`.
When `le` holds on ties, an element inserted later (i.e. earlier in the
input) lands in front of equal elements, which gives a stable sort. -/
def insertS {α : Type} (le : α → α → Bool) (x : α) : List α → List α
  | [] => [x]
  | y :: ys => if le x y then x :: y :: ys else y :: insertS le x ys

/-- Stable insertion sort with respect to the boolean relation `le`. -/
def sortS {α : Type} (le : α → α → Bool) : List α → List α
  | [] => []
  | x :: xs => insertS le x (sortS le xs)

/-- Stable descending sort by a natural-number key: the embedding of
Python's `list.sort(key=..., reverse=True)` (stable, documented). -/
def sortDescBy {α : Type} (key : α → Nat) (l : List α) : List α :=
  sortS (fun a b => decide (key b ≤ key a)) l

/-- Stable ascending sort by a natural-number key: the embedding of
Python's `list.sort(key=...)`. -/
def sortAscBy {α : Type} (key : α → Nat) (l : List α) : List α :=
  sortS (fun a b => decide (key a ≤ key b)) l

/- ## Overdue endpoint (`get_overdue_tasks`, main.py lines 410-452) -/

/-- One entry of the overdue response (the dict literal at lines 430-439). -/
structure OverdueEntry where
  title : String
  assignee : String
  assignee_email : Option String
  priority : String
  due_date : String
  days_overdue : Nat
  status : String
  url : String
deriving DecidableEq, Repr

/-- The overdue entry built from task `t` for reference date `today` and
parsed due ordinal `due` (`days_overdue = (today - due).days`). -/
def mkOverdueEntry (t : TaskRec) (today due : Nat) : OverdueEntry :=
  { title := t.title
    assignee := t.assignee_name
    assignee_email := t.assignee_email
    priority := t.priority
    due_date := t.due_date.getD ""
    days_overdue := today - due
    status := t.status
    url := t.url }

/-- Body of the `for task in tasks` loop of `get_overdue_tasks`:
skip `Done`, require a truthy `due_date`, parse it (`except: pass`),
and keep the task when `due < today`. -/
def overdueOf (today : Nat) (t : TaskRec) : Option OverdueEntry :=
  if t.status = "Done" then none
  else
    match t.due_date with
    | none => none
    | some s =>
      if s = "" then none
      else
        match parseDate s with
        | none => none
        | some due => if due < today then some (mkOverdueEntry t today due) else none

/-- Response shape of `GET /tasks/overdue`. -/
structure OverdueResponse where
  total_overdue : Nat
  tasks : List OverdueEntry
deriving DecidableEq, Repr

/-- Embedding of `get_overdue_tasks` (main.py lines 410-452), with the
already-fetched task list and the reference date as explicit inputs. -/
def get_overdue_tasks (tasks : List TaskRec) (today : Nat) : OverdueResponse :=
  let l := sortDescBy (fun e => e.days_overdue) (tasks.filterMap (overdueOf today))
  { total_overdue := l.length, tasks := l }

/- ## At-risk endpoint (`get_at_risk_tasks`, main.py lines 454-499) -/

/-- One entry of the at-risk response (the dict literal at lines 477-486). -/
structure AtRiskEntry where
  title : String
  assignee : String
  assignee_email : Option String
  priority : String
  due_date : String
  days_until_due : Nat
  status : String
  url : String
deriving DecidableEq, Repr

/-- The at-risk entry built from task `t` for reference date `today` and
parsed due ordinal `due` (`days_until_due = (due - today).days`). -/
def mkAtRiskEntry (t : TaskRec) (today due : Nat) : AtRiskEntry :=
  { title := t.title
    assignee := t.assignee_name
    assignee_email := t.assignee_email
    priority := t.priority
    due_date := t.due_date.getD ""
    days_until_due := due - today
    status := t.status
    url := t.url }

/-- Body of the `for task in tasks` loop of `get_at_risk_tasks`:
skip `Done`, require a truthy `due_date`, parse it (`except: pass`), and
keep the task when `today <= due <= today + 2` (`risk_threshold`). -/
def atRiskOf (today : Nat) (t : TaskRec) : Option AtRiskEntry :=
  if t.status = "Done" then none
  else
    match t.due_date with
    | none => none
    | some s =>
      if s = "" then none
      else
        match parseDate s with
        | none => none
        | some due =>
          if today ≤ due ∧ due ≤ today + 2 then some (mkAtRiskEntry t today due) else none

/-- Response shape of `GET /tasks/at-risk`. -/
structure AtRiskResponse where
  total_at_risk : Nat
  tasks : List AtRiskEntry
deriving DecidableEq, Repr

/-- Embedding of `get_at_risk_tasks` (main.py lines 454-499). -/
def get_at_risk_tasks (tasks : List TaskRec) (today : Nat) : AtRiskResponse :=
  let l := sortAscBy (fun e => e.days_until_due) (tasks.filterMap (atRiskOf today))
  { total_at_risk := l.length, tasks := l }

/- ## Dashboard endpoint (`get_dashboard`, main.py lines 363-408) -/

/-- Count of tasks whose `status` equals `s` exactly (case-sensitive
`==` comparison, main.py lines 373-375). -/
def countStatus (s : String) (tasks : List TaskRec) : Nat :=
  tasks.countP (fun t => t.status == s)

/-- The `is_overdue` flag computed per task at main.py lines 380-392:
requires a truthy `due_date` and `status != "Done"`, then a successful
parse and `due < today`; every failure path yields `False`. -/
def isOverdueFlag (today : Nat) (t : TaskRec) : Bool :=
  match t.due_date with
  | none => false
  | some s =>
    if s = "" then false
    else if t.status = "Done" then false
    else
      match parseDate s with
      | none => false
      | some due => decide (due < today)

/-- Rounding to one decimal place, as done by the `:.1f` format of the
completion rate.  The binary floating-point value is abstracted to the
exact rational; rounding is to the nearest tenth. -/
def roundTo1 (q : ℚ) : ℚ := (round (q * 10) : ℤ) / 10

/-- The `summary` object of the dashboard response (main.py lines 395-402).
`completion_rate` is kept as its numeric value (the code formats it as a
percentage string with one decimal, or the literal `"0%"`). -/
structure DashSummary where
  total_tasks : Nat
  completed : Nat
  in_progress : Nat
  todo : Nat
  overdue : Nat
  completion_rate : ℚ
deriving DecidableEq, Repr

/-- Embedding of the metric computation of `get_dashboard`. -/
def dashboardSummary (tasks : List TaskRec) (today : Nat) : DashSummary :=
  { total_tasks := tasks.length
    completed := countStatus "Done" tasks
    in_progress := countStatus "In Progress" tasks
    todo := countStatus "To Do" tasks
    overdue := tasks.countP (isOverdueFlag today)
    completion_rate :=
      if tasks.length > 0 then
        roundTo1 ((countStatus "Done" tasks : ℚ) / (tasks.length : ℚ) * 100)
      else 0 }

/-- Structured error response raised via `HTTPException`. -/
structure HTTPError where
  code : Nat
  detail : String
deriving DecidableEq, Repr

/-- Full dashboard response: summary plus the task list annotated with its
`is_overdue` flag. -/
structure Dashboard where
  summary : DashSummary
  tasks : List (TaskRec × Bool)
deriving DecidableEq, Repr

/-- Embedding of `get_dashboard` (main.py lines 363-408).  The Notion
client availability and the outcome of `query_all_tasks_with_emails()` are
explicit inputs; an exception during the fetch is caught by the
`try/except` and re-raised as `HTTPException(500, "Dashboard error: ...")`. -/
def get_dashboard (notionAvailable : Bool) (fetch : Except String (List TaskRec))
    (today : Nat) : Except HTTPError Dashboard :=
  if notionAvailable = false then .error ⟨503, "Notion not available"⟩
  else
    match fetch with
    | .error e => .error ⟨500, "Dashboard error: " ++ e⟩
    | .ok tasks =>
      .ok { summary := dashboardSummary tasks today
            tasks := tasks.map (fun t => (t, isOverdueFlag today t)) }

/- ## Team Workload section (`generate_daily_report`, main.py lines 555-562) -/

/-- One step of `counts[assignee] = counts.get(assignee, 0) + 1` on an
insertion-ordered association list (a Python dict preserves insertion
order). -/
def bumpCount (l : List (String × Nat)) (k : String) : List (String × Nat) :=
  match l with
  | [] => [(k, 1)]
  | (a, n) :: rest => if a = k then (a, n + 1) :: rest else (a, n) :: bumpCount rest k

/-- The `assignee_counts` dict built at main.py lines 555-559: every
non-`Done` task bumps the count of its `assignee_name`. -/
def assigneeCounts (tasks : List TaskRec) : List (String × Nat) :=
  tasks.foldl (fun acc t => if t.status = "Done" then acc else bumpCount acc t.assignee_name) []

/-- The rendered Team Workload order, main.py line 561:
`sorted(assignee_counts.items(), key=lambda x: x[1], reverse=True)` —
a stable descending sort on the count alone. -/
def teamWorkload (tasks : List TaskRec) : List (String × Nat) :=
  sortDescBy (fun p => p.2) (assigneeCounts tasks)

/-- Lexicographic comparison of character lists by code point. -/
def charListLe : List Char → List Char → Bool
  | [], _ => true
  | _ :: _, [] => false
  | a :: as, b :: bs =>
    if a.toNat < b.toNat then true
    else if b.toNat < a.toNat then false
    else charListLe as bs

/-- Lexicographic string order by code point. -/
def strLe (a b : String) : Bool := charListLe a.data b.data

/-- Modelled from the spec's words (not from the source): workload pairs
sorted by count descending with ties broken by assignee name ascending.
Used only to compare the spec's claimed order with the source's order. -/
def teamWorkloadNameTieBreak (tasks : List TaskRec) : List (String × Nat) :=
  sortS (fun a b => decide (b.2 < a.2) || (a.2 == b.2 && strLe a.1 b.1)) (assigneeCounts tasks)

/- ## Groq summarizer (`GroqAgent.summarize_tasks`, groq_agent.py lines 17-41) -/

/-- The fixed fallback sentence returned when the Groq call raises
(groq_agent.py line 41). -/
def groqFallback : String :=
  "AI summarization failed. Please verify your Groq API credentials or network connection."

/-- Embedding of `GroqAgent.summarize_tasks`: empty input short-circuits;
otherwise the LLM call either returns prose (stripped) or raises, in which
case the `except` branch returns the fixed fallback sentence. -/
def summarize_tasks (llm : Except String String) (tasks : List TaskRec) : String :=
  if tasks.isEmpty then "No tasks found in the Notion database."
  else
    match llm with
    | .ok content => content.trim
    | .error _ => groqFallback

/- ## Report generation (`generate_report`, chat.py lines 18-100) -/

/-- Request body of `POST /chat/report`. -/
structure ChatRequest where
  user : String
  message : String
deriving DecidableEq, Repr

/-- The `summary` dict built at chat.py lines 60-71 (case-insensitive
status matching, unlike the dashboard). -/
structure ChatSummary where
  total_tasks : Nat
  completed : Nat
  in_progress : Nat
  todo : Nat
deriving DecidableEq, Repr

/-- Embedding of the summary computation of chat.py lines 60-71. -/
def chatSummary (tasks : List TaskRec) : ChatSummary :=
  { total_tasks := tasks.length
    completed := tasks.countP (fun t => t.status.toLower == "done" || t.status.toLower == "completed")
    in_progress := tasks.countP (fun t => t.status.toLower == "in progress")
    todo := tasks.countP (fun t => t.status.toLower == "to do" || t.status.toLower == "todo") }

/-- One chat message of the response. -/
structure ChatMsg where
  role : String
  text : String
deriving DecidableEq, Repr

/-- The `Report` row persisted to the database (chat.py lines 83-90,
db/models.py). -/
structure StoredReport where
  user : String
  summary_text : String
  report_markdown : String
  task_summary : ChatSummary
deriving DecidableEq, Repr

/-- Response body of `POST /chat/report`. -/
structure ChatResponse where
  messages : List ChatMsg
  report_markdown : String
  summary : ChatSummary
deriving DecidableEq, Repr

/-- Result of one `generate_report` call: the HTTP response plus the report
row appended to the store (if any). -/
structure ChatResult where
  response : ChatResponse
  persisted : Option StoredReport
deriving DecidableEq, Repr

/-- One line of the Task Breakdown section (chat.py lines 53-58). -/
def taskLine (t : TaskRec) : String :=
  "- " ++ t.title ++ " — " ++ t.status ++ " — " ++ t.assignee_name
    ++ " — Due: " ++ (t.due_date.getD "No due date") ++ "\n"

/-- The successful (non-empty task list) result of `generate_report`:
markdown assembled from the summary text and the first ten tasks, the
structured summary, and the persisted report row. -/
def chatOkResult (tasks : List TaskRec) (req : ChatRequest) (summary_text : String) :
    ChatResult :=
  let header := "# Project Report\n**User:** " ++ req.user ++ "\n\n**AI Summary:**\n"
    ++ summary_text ++ "\n\n**Task Breakdown (Top 10):**\n"
  let report_markdown := (tasks.take 10).foldl (fun acc t => acc ++ taskLine t) header
  let summary := chatSummary tasks
  { response :=
      { messages :=
          [⟨"user", req.message⟩,
           ⟨"assistant", "ZenAI successfully generated your Notion project report."⟩]
        report_markdown := report_markdown
        summary := summary }
    persisted := some ⟨req.user, summary_text, report_markdown, summary⟩ }

/-- Embedding of `generate_report` (chat.py lines 18-100).  The Notion
fetch and the Groq call outcomes are explicit inputs; an exception during
the fetch escapes the inner logic and is converted to
`HTTPException(500, ...)` by the surrounding `except`; an empty task list
returns the fixed no-data response without persisting anything. -/
def generate_report (fetch : Except String (List TaskRec)) (llm : Except String String)
    (req : ChatRequest) : Except HTTPError ChatResult :=
  match fetch with
  | .error e => .error ⟨500, "Report generation failed: " ++ e⟩
  | .ok tasks =>
    if tasks.isEmpty then
      .ok { response :=
              { messages :=
                  [⟨"user", req.message⟩,
                   ⟨"assistant", "No tasks found in your Notion workspace. Please verify your database ID or API key."⟩]
                report_markdown := "No task data available."
                summary := ⟨0, 0, 0, 0⟩ }
            persisted := none }
    else .ok (chatOkResult tasks req (summarize_tasks llm tasks))

/- ## Scheduled job (`run_scheduled_report`, scheduler.py lines 9-28) -/

/-- Observable outcome of one scheduler tick: the `except` branch only
prints the error, an empty fetch only prints a notice, and otherwise a
summary is produced. -/
inductive SchedOutcome where
  | loggedError (msg : String)
  | noTasks
  | reported (summary : String)
deriving DecidableEq, Repr

/-- Embedding of `run_scheduled_report` (scheduler.py lines 9-28). -/
def run_scheduled_report (fetch : Except String (List TaskRec))
    (llm : Except String String) : SchedOutcome :=
  match fetch with
  | .error e => .loggedError e
  | .ok tasks =>
    if tasks.isEmpty then .noTasks
    else .reported (summarize_tasks llm tasks)

/- ## Concrete records used by the witness theorems -/

/-- Reference date 2024-01-05 used in concrete scenarios. -/
def refDay : Nat := toOrdinal 2024 1 5

/-- A To Do task four days overdue on `refDay`. -/
def wOver : TaskRec := ⟨"fix login", "To Do", "Zed", none, "High", some "2024-01-01", "u1"⟩

/-- An In Progress task due one day after `refDay`. -/
def wRisk : TaskRec := ⟨"write docs", "In Progress", "Alice", some "a@x.com", "Low", some "2024-01-06", "u2"⟩

/-- A Done task with a long-past due date. -/
def wDone : TaskRec := ⟨"old chore", "Done", "Bob", none, "Medium", some "2020-01-01", "u3"⟩

/-- A task whose status label is lowercase `"done"`. -/
def wLower : TaskRec := ⟨"odd label", "done", "Eve", none, "Medium", none, "u4"⟩

/-- The overdue entry that `wOver` contributes on `refDay`. -/
def wOverEntry : OverdueEntry := mkOverdueEntry wOver refDay (toOrdinal 2024 1 1)

/-- The at-risk entry that `wRisk` contributes on `refDay`. -/
def wRiskEntry : AtRiskEntry := mkAtRiskEntry wRisk refDay (toOrdinal 2024 1 6)

/- ## Lemmas about the stable insertion sort -/

theorem mem_insertS {α : Type} (le : α → α → Bool) (x : α) (l : List α) (a : α) :
    a ∈ insertS le x l ↔ a = x ∨ a ∈ l := by
  induction l with
  | nil => simp [insertS]
  | cons y ys ih =>
    by_cases h : le x y = true
    · simp [insertS, h]
    · simp [insertS, h, ih]
      tauto

theorem mem_sortS {α : Type} (le : α → α → Bool) (l : List α) (a : α) :
    a ∈ sortS le l ↔ a ∈ l := by
  induction l with
  | nil => simp [sortS]
  | cons x xs ih => simp [sortS, mem_insertS, ih]

theorem pairwise_insertS {α : Type} (le : α → α → Bool)
    (htot : ∀ a b, le a b = true ∨ le b a = true)
    (htrans : ∀ a b c, le a b = true → le b c = true → le a c = true)
    (x : α) (l : List α) (hl : l.Pairwise (fun a b => le a b = true)) :
    (insertS le x l).Pairwise (fun a b => le a b = true) := by
  induction l with
  | nil => simp [insertS]
  | cons y ys ih =>
    rcases List.pairwise_cons.mp hl with ⟨hy, hys⟩
    by_cases h : le x y = true
    · simp only [insertS, if_pos h]
      refine List.pairwise_cons.mpr ⟨?_, hl⟩
      intro b hb
      rcases List.mem_cons.mp hb with rfl | hb
      · exact h
      · exact htrans x y b h (hy b hb)
    · simp only [insertS, if_neg h]
      refine List.pairwise_cons.mpr ⟨?_, ih hys⟩
      intro b hb
      rcases (mem_insertS le x ys b).mp hb with rfl | hb
      · rcases htot b y with h1 | h1
        · exact absurd h1 h
        · exact h1
      · exact hy b hb

theorem pairwise_sortS {α : Type} (le : α → α → Bool)
    (htot : ∀ a b, le a b = true ∨ le b a = true)
    (htrans : ∀ a b c, le a b = true → le b c = true → le a c = true)
    (l : List α) :
    (sortS le l).Pairwise (fun a b => le a b = true) := by
  induction l with
  | nil => simp [sortS]
  | cons x xs ih => exact pairwise_insertS le htot htrans x _ ih

theorem filter_insertS {α : Type} (le : α → α → Bool) (p : α → Bool) (x : α)
    (hx : p x = true → ∀ y, le x y = false → p y = false) (l : List α) :
    (insertS le x l).filter p = if p x then x :: l.filter p else l.filter p := by
  induction l with
  | nil => by_cases hp : p x = true <;> simp [insertS, List.filter_cons, hp]
  | cons y ys ih =>
    by_cases h : le x y = true
    · simp only [insertS, if_pos h]
      by_cases hp : p x = true
      · simp [List.filter_cons, hp]
      · simp [List.filter_cons, hp]
    · simp only [insertS, if_neg h]
      by_cases hp : p x = true
      · have hpy : p y = false := hx hp y (Bool.eq_false_iff.mpr h)
        simp [List.filter_cons, hpy, ih, hp]
      · simp [List.filter_cons, ih, hp]

theorem filter_sortS {α : Type} (le : α → α → Bool) (p : α → Bool)
    (hcomp : ∀ x, p x = true → ∀ y, le x y = false → p y = false) (l : List α) :
    (sortS le l).filter p = l.filter p := by
  induction l with
  | nil => rfl
  | cons x xs ih =>
    simp only [sortS]
    rw [filter_insertS le p x (hcomp x), ih, List.filter_cons]

theorem pairwise_sortDescBy {α : Type} (key : α → Nat) (l : List α) :
    (sortDescBy key l).Pairwise (fun a b => key b ≤ key a) := by
  have h := pairwise_sortS (fun a b => decide (key b ≤ key a))
    (fun a b => by
      rcases Nat.le_total (key b) (key a) with h | h
      · left; simpa using h
      · right; simpa using h)
    (fun a b c hab hbc => by
      simp only [decide_eq_true_eq] at *
      omega) l
  exact h.imp (fun hab => by simpa using hab)

theorem filter_sortDescBy {α : Type} (key : α → Nat) (l : List α) (k : Nat) :
    (sortDescBy key l).filter (fun a => key a == k) = l.filter (fun a => key a == k) := by
  apply filter_sortS
  intro x hx y hy
  simp only [beq_iff_eq, decide_eq_false_iff_not, Nat.not_le, beq_eq_false_iff_ne] at hx hy ⊢
  omega

theorem pairwise_sortAscBy {α : Type} (key : α → Nat) (l : List α) :
    (sortAscBy key l).Pairwise (fun a b => key a ≤ key b) := by
  have h := pairwise_sortS (fun a b => decide (key a ≤ key b))
    (fun a b => by
      rcases Nat.le_total (key a) (key b) with h | h
      · left; simpa using h
      · right; simpa using h)
    (fun a b c hab hbc => by
      simp only [decide_eq_true_eq] at *
      omega) l
  exact h.imp (fun hab => by simpa using hab)

theorem filter_sortAscBy {α : Type} (key : α → Nat) (l : List α) (k : Nat) :
    (sortAscBy key l).filter (fun a => key a == k) = l.filter (fun a => key a == k) := by
  apply filter_sortS
  intro x hx y hy
  simp only [beq_iff_eq, decide_eq_false_iff_not, Nat.not_le, beq_eq_false_iff_ne] at hx hy ⊢
  omega

/- ## Characterizations of the per-task classifiers -/

theorem overdueOf_eq_some (today : Nat) (t : TaskRec) (e : OverdueEntry) :
    overdueOf today t = some e ↔
      t.status ≠ "Done" ∧ ∃ due, dueOrd t = some due ∧ due < today
        ∧ e = mkOverdueEntry t today due := by
  unfold overdueOf dueOrd dueOrdOfString
  by_cases hst : t.status = "Done"
  · simp [hst]
  · simp only [if_neg hst, ne_eq, hst, not_false_iff, true_and]
    cases hd : t.due_date with
    | none => simp
    | some s =>
      by_cases hs : s = ""
      · simp [hs]
      · simp only [if_neg hs]
        cases hp : parseDate s with
        | none => simp
        | some due =>
          by_cases hlt : due < today
          · simp [hlt, eq_comm]
          · simp [hlt]

theorem atRiskOf_eq_some (today : Nat) (t : TaskRec) (e : AtRiskEntry) :
    atRiskOf today t = some e ↔
      t.status ≠ "Done" ∧ ∃ due, dueOrd t = some due ∧ today ≤ due ∧ due ≤ today + 2
        ∧ e = mkAtRiskEntry t today due := by
  unfold atRiskOf dueOrd dueOrdOfString
  by_cases hst : t.status = "Done"
  · simp [hst]
  · simp only [if_neg hst, ne_eq, hst, not_false_iff, true_and]
    cases hd : t.due_date with
    | none => simp
    | some s =>
      by_cases hs : s = ""
      · simp [hs]
      · simp only [if_neg hs]
        cases hp : parseDate s with
        | none => simp
        | some due =>
          by_cases hin : today ≤ due ∧ due ≤ today + 2
          · simp [hin, hin.1, hin.2, eq_comm]
          · constructor
            · intro h
              simp [hin] at h
            · rintro ⟨due2, hdue, h1, h2, _⟩
              rw [Option.some_inj] at hdue
              subst hdue
              exact absurd ⟨h1, h2⟩ hin

theorem mem_overdue_tasks (tasks : List TaskRec) (today : Nat) (e : OverdueEntry) :
    e ∈ (get_overdue_tasks tasks today).tasks ↔
      ∃ t, t ∈ tasks ∧ overdueOf today t = some e := by
  simp [get_overdue_tasks, sortDescBy, mem_sortS, List.mem_filterMap]

theorem mem_at_risk_tasks (tasks : List TaskRec) (today : Nat) (e : AtRiskEntry) :
    e ∈ (get_at_risk_tasks tasks today).tasks ↔
      ∃ t, t ∈ tasks ∧ atRiskOf today t = some e := by
  simp [get_at_risk_tasks, sortAscBy, mem_sortS, List.mem_filterMap]

theorem overdueOf_eq_none_of (today : Nat) (t : TaskRec)
    (h : t.status = "Done" ∨ dueOrd t = none) : overdueOf today t = none := by
  cases ho : overdueOf today t with
  | none => rfl
  | some e =>
    rcases (overdueOf_eq_some today t e).mp ho with ⟨h1, due, h2, _⟩
    rcases h with h | h
    · exact absurd h h1
    · rw [h] at h2; cases h2

theorem atRiskOf_eq_none_of (today : Nat) (t : TaskRec)
    (h : t.status = "Done" ∨ dueOrd t = none) : atRiskOf today t = none := by
  cases ho : atRiskOf today t with
  | none => rfl
  | some e =>
    rcases (atRiskOf_eq_some today t e).mp ho with ⟨h1, due, h2, _⟩
    rcases h with h | h
    · exact absurd h h1
    · rw [h] at h2; cases h2

/- ## Counting lemmas for the dashboard -/

theorem countStatus_le_length (s : String) (tasks : List TaskRec) :
    countStatus s tasks ≤ tasks.length :=
  List.countP_le_length _

theorem buckets_le_length (tasks : List TaskRec) :
    countStatus "Done" tasks + countStatus "In Progress" tasks + countStatus "To Do" tasks
      ≤ tasks.length := by
  induction tasks with
  | nil => simp [countStatus]
  | cons t ts ih =>
    simp only [countStatus, List.countP_cons, List.length_cons] at *
    by_cases h1 : t.status = "Done" <;> by_cases h2 : t.status = "In Progress" <;>
      by_cases h3 : t.status = "To Do" <;> simp_all <;> omega

/- ## Rounding lemmas -/

theorem round_rat_mono {a b : ℚ} (h : a ≤ b) : round a ≤ round b := by
  rw [round_eq, round_eq]
  exact Int.floor_le_floor (by linarith)

theorem roundTo1_bounds (q : ℚ) (h0 : 0 ≤ q) (h100 : q ≤ 100) :
    0 ≤ roundTo1 q ∧ roundTo1 q ≤ 100 := by
  unfold roundTo1
  have hlo : (0 : ℤ) ≤ round (q * 10) := by
    have := round_rat_mono (a := 0) (b := q * 10) (by linarith)
    simpa using this
  have hhi : round (q * 10) ≤ (1000 : ℤ) := by
    have := round_rat_mono (a := q * 10) (b := 1000) (by linarith)
    have h1000 : round ((1000 : ℚ)) = (1000 : ℤ) := by
      rw [round_eq]
      norm_num
    rw [h1000] at this
    exact this
  constructor
  · positivity
  · rw [div_le_iff₀ (by norm_num : (0:ℚ) < 10)]
    calc ((round (q * 10) : ℤ) : ℚ) ≤ ((1000 : ℤ) : ℚ) := by exact_mod_cast hhi
    _ = 100 * 10 := by norm_num

/- ## Claim theorems -/

/-- C1: a task appears in the overdue output iff its status is not `Done`,
it has a present and parseable `YYYY-MM-DD` due date, and that due date is
strictly before `today`; each overdue entry's `days_overdue` equals
`today - dueDate` in whole days. -/
theorem overdue_membership_spec (tasks : List TaskRec) (today : Nat) (e : OverdueEntry) :
    e ∈ (get_overdue_tasks tasks today).tasks ↔
      ∃ t ∈ tasks, t.status ≠ "Done" ∧
        ∃ due, dueOrd t = some due ∧ due < today ∧
          e = mkOverdueEntry t today due ∧ e.days_overdue = today - due := by
  rw [mem_overdue_tasks]
  constructor
  · rintro ⟨t, ht, hsome⟩
    rcases (overdueOf_eq_some today t e).mp hsome with ⟨h1, due, h2, h3, h4⟩
    exact ⟨t, ht, h1, due, h2, h3, h4, by rw [h4]; rfl⟩
  · rintro ⟨t, ht, h1, due, h2, h3, h4, h5⟩
    exact ⟨t, ht, (overdueOf_eq_some today t e).mpr ⟨h1, due, h2, h3, h4⟩⟩

/-- C2: with a risk window of 2 days, a task appears in the at-risk output
iff its status is not `Done`, it has a present and parseable due date, and
`today ≤ dueDate ≤ today + 2`; each entry's `days_until_due` equals
`dueDate - today` and lies in `[0, 2]` (a task due exactly today yields
`days_until_due = 0`). -/
theorem at_risk_membership_spec (tasks : List TaskRec) (today : Nat) (e : AtRiskEntry) :
    e ∈ (get_at_risk_tasks tasks today).tasks ↔
      ∃ t ∈ tasks, t.status ≠ "Done" ∧
        ∃ due, dueOrd t = some due ∧ today ≤ due ∧ due ≤ today + 2 ∧
          e = mkAtRiskEntry t today due ∧ e.days_until_due = due - today
          ∧ e.days_until_due ≤ 2 := by
  rw [mem_at_risk_tasks]
  constructor
  · rintro ⟨t, ht, hsome⟩
    rcases (atRiskOf_eq_some today t e).mp hsome with ⟨h1, due, h2, h3, h4, h5⟩
    refine ⟨t, ht, h1, due, h2, h3, h4, h5, by rw [h5]; rfl, ?_⟩
    rw [h5]
    show due - today ≤ 2
    omega
  · rintro ⟨t, ht, h1, due, h2, h3, h4, h5, _, _⟩
    exact ⟨t, ht, (atRiskOf_eq_some today t e).mpr ⟨h1, due, h2, h3, h4, h5⟩⟩

/-- C3: a task whose status is `Done` contributes no entry to either the
overdue or the at-risk output regardless of its due date, and a task with
no (present and parseable) due date contributes no entry to either output
regardless of its status. -/
theorem done_or_undated_excluded (tasks : List TaskRec) (today : Nat) (t : TaskRec)
    (e : OverdueEntry) (e2 : AtRiskEntry)
    (h : t.status = "Done" ∨ dueOrd t = none)
    (he : e ∈ (get_overdue_tasks tasks today).tasks)
    (he2 : e2 ∈ (get_at_risk_tasks tasks today).tasks) :
    overdueOf today t ≠ some e ∧ atRiskOf today t ≠ some e2 := by
  constructor
  · simp [overdueOf_eq_none_of today t h]
  · simp [atRiskOf_eq_none_of today t h]

/-- Witness for C3 at a concrete input: on 2024-01-05, with one overdue and
one at-risk task present in the list, the `Done` task `wDone` contributes
neither of the produced entries. -/
theorem done_or_undated_excluded_witness :
    overdueOf refDay wDone ≠ some wOverEntry ∧ atRiskOf refDay wDone ≠ some wRiskEntry :=
  done_or_undated_excluded [wOver, wRisk] refDay wDone wOverEntry wRiskEntry (Or.inl rfl)
    (by decide) (by decide)

/-- C4: for any reference date, no task is classified both overdue and
at-risk: its overdue classification and its at-risk classification cannot
both produce an entry. -/
theorem overdue_at_risk_disjoint (today : Nat) (t : TaskRec) :
    overdueOf today t = none ∨ atRiskOf today t = none := by
  by_contra hcon
  push_neg at hcon
  obtain ⟨h1, h2⟩ := hcon
  obtain ⟨e1, he1⟩ := Option.ne_none_iff_exists'.mp h1
  obtain ⟨e2, he2⟩ := Option.ne_none_iff_exists'.mp h2
  rcases (overdueOf_eq_some today t e1).mp he1 with ⟨_, d1, hd1, hlt, _⟩
  rcases (atRiskOf_eq_some today t e2).mp he2 with ⟨_, d2, hd2, hge, _, _⟩
  rw [hd1, Option.some_inj] at hd2
  omega

/-- C5: the overdue output is sorted by `days_overdue` descending and the
at-risk output by `days_until_due` ascending, and both sorts are stable:
for every key value, the entries carrying that key appear in exactly the
order in which their tasks occur in the input list (the unsorted
`filterMap` order). -/
theorem classification_sort_spec (tasks : List TaskRec) (today : Nat) :
    ((get_overdue_tasks tasks today).tasks.Pairwise
        (fun a b => b.days_overdue ≤ a.days_overdue)
      ∧ ∀ k, (get_overdue_tasks tasks today).tasks.filter (fun e => e.days_overdue == k)
          = (tasks.filterMap (overdueOf today)).filter (fun e => e.days_overdue == k))
    ∧ ((get_at_risk_tasks tasks today).tasks.Pairwise
        (fun a b => a.days_until_due ≤ b.days_until_due)
      ∧ ∀ k, (get_at_risk_tasks tasks today).tasks.filter (fun e => e.days_until_due == k)
          = (tasks.filterMap (atRiskOf today)).filter (fun e => e.days_until_due == k)) :=
  ⟨⟨pairwise_sortDescBy _ _, fun k => filter_sortDescBy _ _ k⟩,
   ⟨pairwise_sortAscBy _ _, fun k => filter_sortAscBy _ _ k⟩⟩

/-- C6: the dashboard completion rate equals `done/total × 100` rounded to
one decimal place when the task list is non-empty, equals `0` when it is
empty (no division by zero), and always lies in `[0, 100]`. -/
theorem completion_rate_spec (tasks : List TaskRec) (today : Nat) :
    (dashboardSummary tasks today).completion_rate
      = (if tasks.length = 0 then 0
         else roundTo1 ((countStatus "Done" tasks : ℚ) / (tasks.length : ℚ) * 100))
    ∧ 0 ≤ (dashboardSummary tasks today).completion_rate
    ∧ (dashboardSummary tasks today).completion_rate ≤ 100 := by
  rcases Nat.eq_zero_or_pos tasks.length with hn | hn
  · simp [dashboardSummary, hn]
  · have hne : tasks.length ≠ 0 := by omega
    have hc : countStatus "Done" tasks ≤ tasks.length := countStatus_le_length _ _
    have hlen : (0:ℚ) < (tasks.length : ℚ) := by exact_mod_cast hn
    have hq0 : (0:ℚ) ≤ (countStatus "Done" tasks : ℚ) / (tasks.length : ℚ) * 100 := by
      positivity
    have hq100 : (countStatus "Done" tasks : ℚ) / (tasks.length : ℚ) * 100 ≤ 100 := by
      rw [div_mul_eq_mul_div, div_le_iff₀ hlen]
      have hcq : ((countStatus "Done" tasks : ℚ)) ≤ (tasks.length : ℚ) := by exact_mod_cast hc
      nlinarith
    obtain ⟨hb0, hb100⟩ := roundTo1_bounds _ hq0 hq100
    refine ⟨?_, ?_, ?_⟩
    · simp [dashboardSummary, hn, hne]
    · simpa [dashboardSummary, hn] using hb0
    · simpa [dashboardSummary, hn] using hb100

/-- C7: when the task list is non-empty and the Groq call raises, report
generation is not aborted: `generate_report` still returns a successful
response whose statistics are the computed `chatSummary`, the summary text
is the fixed fallback sentence, and the degraded report is persisted. -/
theorem summarizer_failure_degraded_report (tasks : List TaskRec) (req : ChatRequest)
    (err : String) (h : tasks ≠ []) :
    generate_report (Except.ok tasks) (Except.error err) req
        = Except.ok (chatOkResult tasks req groqFallback)
    ∧ (chatOkResult tasks req groqFallback).persisted
        = some ⟨req.user, groqFallback,
            (chatOkResult tasks req groqFallback).response.report_markdown, chatSummary tasks⟩
    ∧ (chatOkResult tasks req groqFallback).response.summary = chatSummary tasks := by
  have hne : tasks.isEmpty = false := by
    cases tasks with
    | nil => exact absurd rfl h
    | cons a l => rfl
  have hsum : summarize_tasks (Except.error err) tasks = groqFallback := by
    simp [summarize_tasks, hne]
  refine ⟨?_, rfl, rfl⟩
  simp [generate_report, hne, hsum]

/-- Witness for C7 at a concrete input: one To Do task, a failing Groq
call, and a concrete request. -/
theorem summarizer_failure_degraded_report_witness :
    generate_report (Except.ok [wOver]) (Except.error "boom") ⟨"ava", "report"⟩
        = Except.ok (chatOkResult [wOver] ⟨"ava", "report"⟩ groqFallback)
    ∧ (chatOkResult [wOver] ⟨"ava", "report"⟩ groqFallback).persisted
        = some ⟨"ava", groqFallback,
            (chatOkResult [wOver] ⟨"ava", "report"⟩ groqFallback).response.report_markdown,
            chatSummary [wOver]⟩
    ∧ (chatOkResult [wOver] ⟨"ava", "report"⟩ groqFallback).response.summary
        = chatSummary [wOver] :=
  summarizer_failure_degraded_report [wOver] ⟨"ava", "report"⟩ "boom" (by decide)

/-- C8 counterexample: with two To Do tasks assigned to `"Zed"` and then
`"Alice"` (one active task each), the rendered Team Workload order keeps
the first-appearance order `Zed, Alice`, while the claimed
count-descending/name-ascending order would be `Alice, Zed`; the source's
order differs from the claimed order at this input. -/
theorem team_workload_tie_break_counterexample :
    teamWorkload [wOver, wRisk] = [("Zed", 1), ("Alice", 1)]
    ∧ teamWorkloadNameTieBreak [wOver, wRisk] = [("Alice", 1), ("Zed", 1)]
    ∧ teamWorkload [wOver, wRisk] ≠ teamWorkloadNameTieBreak [wOver, wRisk] := by
  refine ⟨rfl, rfl, ?_⟩
  have h1 : teamWorkload [wOver, wRisk] = [("Zed", 1), ("Alice", 1)] := rfl
  have h2 : teamWorkloadNameTieBreak [wOver, wRisk] = [("Alice", 1), ("Zed", 1)] := rfl
  rw [h1, h2]
  simp

/-- C8 as amended: the Team Workload section lists assignee/count pairs
sorted by active-task count descending, and ties between equal counts keep
the order in which the assignees first received a non-Done task in the
input list (the dict insertion order); the output is a deterministic
function of the input list. -/
theorem team_workload_order (tasks : List TaskRec) :
    (teamWorkload tasks).Pairwise (fun a b => b.2 ≤ a.2)
    ∧ ∀ k, (teamWorkload tasks).filter (fun p => p.2 == k)
        = (assigneeCounts tasks).filter (fun p => p.2 == k) :=
  ⟨pairwise_sortDescBy _ _, fun k => filter_sortDescBy _ _ k⟩

/-- C9 counterexample: when the task fetch raises, the dashboard request
does not return an empty task set with a warning; it becomes a hard
HTTP 500 error. -/
theorem source_unavailable_counterexample :
    get_dashboard true (Except.error "network unreachable") refDay
        = Except.error ⟨500, "Dashboard error: network unreachable"⟩
    ∧ (get_dashboard true (Except.error "network unreachable") refDay).isOk = false :=
  ⟨rfl, rfl⟩

/-- C9 as amended: a failing task fetch is caught: the dashboard endpoint
converts it into a structured HTTP 500 error response (rather than
recovering with an empty task set), and the scheduled report job catches
it and ends with a logged error, producing no report and propagating no
exception. -/
theorem source_failure_surfaced (e : String) (today : Nat) (llm : Except String String) :
    get_dashboard true (Except.error e) today
        = Except.error ⟨500, "Dashboard error: " ++ e⟩
    ∧ run_scheduled_report (Except.error e) llm = SchedOutcome.loggedError e :=
  ⟨rfl, rfl⟩

/-- C10: the dashboard buckets use exact, case-sensitive comparison against
`"Done"`, `"In Progress"` and `"To Do"`: the three bucket counts sum to at
most the total, and prepending a task with any other status label leaves
all three buckets unchanged while the total (the completion-rate
denominator) grows by one. -/
theorem dashboard_buckets_case_sensitive (tasks : List TaskRec) (today : Nat) (t : TaskRec)
    (h1 : t.status ≠ "Done") (h2 : t.status ≠ "In Progress") (h3 : t.status ≠ "To Do") :
    ((dashboardSummary tasks today).completed + (dashboardSummary tasks today).in_progress
        + (dashboardSummary tasks today).todo ≤ (dashboardSummary tasks today).total_tasks)
    ∧ (dashboardSummary (t :: tasks) today).completed = (dashboardSummary tasks today).completed
    ∧ (dashboardSummary (t :: tasks) today).in_progress
        = (dashboardSummary tasks today).in_progress
    ∧ (dashboardSummary (t :: tasks) today).todo = (dashboardSummary tasks today).todo
    ∧ (dashboardSummary (t :: tasks) today).total_tasks
        = (dashboardSummary tasks today).total_tasks + 1 := by
  refine ⟨?_, ?_, ?_, ?_, ?_⟩
  · simpa [dashboardSummary] using buckets_le_length tasks
  all_goals simp [dashboardSummary, countStatus, List.countP_cons, h1, h2, h3]

/-- Witness for C10 at a concrete input: the lowercase status label
`"done"` is counted in the total but in none of the three buckets. -/
theorem dashboard_buckets_case_sensitive_witness :
    ((dashboardSummary [wOver] refDay).completed + (dashboardSummary [wOver] refDay).in_progress
        + (dashboardSummary [wOver] refDay).todo ≤ (dashboardSummary [wOver] refDay).total_tasks)
    ∧ (dashboardSummary (wLower :: [wOver]) refDay).completed
        = (dashboardSummary [wOver] refDay).completed
    ∧ (dashboardSummary (wLower :: [wOver]) refDay).in_progress
        = (dashboardSummary [wOver] refDay).in_progress
    ∧ (dashboardSummary (wLower :: [wOver]) refDay).todo
        = (dashboardSummary [wOver] refDay).todo
    ∧ (dashboardSummary (wLower :: [wOver]) refDay).total_tasks
        = (dashboardSummary [wOver] refDay).total_tasks + 1 :=
  dashboard_buckets_case_sensitive [wOver] refDay wLower (by decide) (by decide) (by decide)
